import Mathlib

/-!
# Verification of the StockPredictor prediction-scoring and reliability-tracking core

Shallow embedding of the core logic of `analyze_sentiments.py` and `verifier.py`:
sentiment tallying, the prediction policy, the scaled scoring function, the binary
correctness verdict, the reliability-ledger migration, and the verification cycle
state machine. Python `int` is modelled by `ℕ`/`ℤ` (counts never go negative in the
source), Python `float` arithmetic by `ℚ` (ideal real arithmetic, the reading the
specification uses), dates by their ordinal value in `ℤ`, and the external
`yfinance` collaborator by an explicit fetch-result parameter.
-/

namespace StockPredictor

/-! ## Data model: sentiment tallies and per-text analysis results -/

/-- The `scores` dictionary built by `tally_results` in `analyze_sentiments.py`:
counts for the five recognised sentiment categories. -/
structure SentimentTally where
  positive : ℕ
  negative : ℕ
  neutral : ℕ
  other : ℕ
  failed : ℕ
deriving Repr, DecidableEq

/-- One element of `analysis_results` in `analyze_sentiments.py`: a per-comment
classification record. (`tally_results` reads only the `sentiment` field; the
numeric confidence `score` is absent on `failed` entries, hence `Option`.) -/
structure AnalysisResult where
  comment : String
  sentiment : String
  score : Option ℚ
deriving Repr, DecidableEq

/-- The label-normalisation step of `analyze_sentiments` (lines 83–91):
the classifier's lower-cased label is mapped onto `positive`/`negative`/`neutral`,
and anything else becomes `other`. -/
def normalize_label (label : String) : String :=
  if label = "positive" then "positive"
  else if label = "negative" then "negative"
  else if label = "neutral" then "neutral"
  else "other"

/-- The loop body of `tally_results`: increment the key matching the entry's
`sentiment`; an entry whose `sentiment` is not one of the five keys is silently
dropped (`if sentiment in scores`). -/
def tally_step (scores : SentimentTally) (item : AnalysisResult) : SentimentTally :=
  if item.sentiment = "positive" then { scores with positive := scores.positive + 1 }
  else if item.sentiment = "negative" then { scores with negative := scores.negative + 1 }
  else if item.sentiment = "neutral" then { scores with neutral := scores.neutral + 1 }
  else if item.sentiment = "other" then { scores with other := scores.other + 1 }
  else if item.sentiment = "failed" then { scores with failed := scores.failed + 1 }
  else scores

/-- `tally_results` from `analyze_sentiments.py` (lines 113–120): starts from the
all-zero dictionary and folds `tally_step` over the results. -/
def tally_results (analysis_results : List AnalysisResult) : SentimentTally :=
  analysis_results.foldl tally_step ⟨0, 0, 0, 0, 0⟩

/-! ## Prediction policy (`make_prediction` in `analyze_sentiments.py`) -/

/-- `make_prediction` from `analyze_sentiments.py` (lines 122–168): asymmetric
thresholds 0.15 / −0.05 on `(positive − negative) / total`, then the complexity
buffer that overrides a tentative `fall` when `negative > positive` and
`negative − positive < 2`. -/
def make_prediction (scores : SentimentTally) : String :=
  let POSITIVE_THRESHOLD : ℚ := 15 / 100
  let NEGATIVE_THRESHOLD : ℚ := -5 / 100
  let MIN_DIFF_FOR_FALL : ℤ := 2
  let P_raw := scores.positive
  let N_raw := scores.negative
  let E_raw := scores.neutral
  let total_analyzed := P_raw + N_raw + E_raw
  if total_analyzed = 0 then "neutral"
  else
    let sentiment_score : ℚ := ((P_raw : ℚ) - (N_raw : ℚ)) / (total_analyzed : ℚ)
    let simple_prediction :=
      if sentiment_score > POSITIVE_THRESHOLD then "rise"
      else if sentiment_score < NEGATIVE_THRESHOLD then "fall"
      else "neutral"
    let is_marginal_fall := N_raw > P_raw ∧ (N_raw : ℤ) - (P_raw : ℤ) < MIN_DIFF_FOR_FALL
    if simple_prediction = "fall" ∧ is_marginal_fall then "neutral"
    else simple_prediction

/-- The prediction policy exactly as the specification words it (C1):
`neutral` on an empty tally, otherwise asymmetric thresholds with the fall
downgrade conditioned only on `negative − positive < 2` (no `negative > positive`
conjunct). Stated separately so its agreement with `make_prediction` is a theorem. -/
def make_prediction_claimed (scores : SentimentTally) : String :=
  let total := scores.positive + scores.negative + scores.neutral
  if total = 0 then "neutral"
  else
    let score : ℚ := ((scores.positive : ℚ) - (scores.negative : ℚ)) / (total : ℚ)
    if score > 15 / 100 then "rise"
    else if score < -5 / 100 then
      if (scores.negative : ℤ) - (scores.positive : ℤ) < 2 then "neutral" else "fall"
    else "neutral"

/-! ## Score function and correctness verdict (`verifier.py`) -/

/-- `MAX_SCORE_THRESHOLD_PERCENT` from `verifier.py`. -/
def MAX_SCORE_THRESHOLD_PERCENT : ℚ := 5

/-- `clamp` from `verifier.py`: `max(min_val, min(value, max_val))`. -/
def clamp (value min_val max_val : ℚ) : ℚ :=
  max min_val (min value max_val)

/-- `calculate_scaled_score` from `verifier.py` (lines 173–184): a direction-shaped
linear ramp clamped to `[0, 1]`; an unrecognised direction keeps the initial
`score = 0.0`. -/
def calculate_scaled_score (prediction : String) (percent_change : ℚ) : ℚ :=
  let max_thresh := MAX_SCORE_THRESHOLD_PERCENT
  let score : ℚ :=
    if prediction = "rise" then (percent_change + max_thresh) / (2 * max_thresh)
    else if prediction = "fall" then 1 - (percent_change + max_thresh) / (2 * max_thresh)
    else if prediction = "neutral" then 1 - |percent_change| / max_thresh
    else 0
  clamp score 0 1

/-- `get_correctness` from `verifier.py` (lines 186–197): the binary verdict with
margin `NEUTRAL_THRESHOLD = 0.5`. -/
def get_correctness (prediction : String) (percent_change : ℚ) : String :=
  let NEUTRAL_THRESHOLD : ℚ := 1 / 2
  if prediction = "rise" then
    if percent_change > NEUTRAL_THRESHOLD then "Correct 👍" else "Incorrect 👎"
  else if prediction = "fall" then
    if percent_change < -NEUTRAL_THRESHOLD then "Correct 👍" else "Incorrect 👎"
  else if prediction = "neutral" then
    if |percent_change| ≤ NEUTRAL_THRESHOLD then "Correct 👍" else "Incorrect 👎"
  else "N/A"

/-! ## Verifier data model (`verifier.py`) -/

/-- `TICKER_MAP` from `verifier.py`: the static entity → ticker lookup table. -/
def TICKER_MAP : List (String × String) :=
  [("reliance", "RELIANCE.NS"), ("apple", "AAPL"), ("google", "GOOGL"),
   ("microsoft", "MSFT"), ("tesla", "TSLA"), ("tata", "TATAMOTORS.NS"),
   ("amazon", "AMZN"), ("netflix", "NFLX"), ("nvidia", "NVDA"), ("meta", "META"),
   ("jpmorgan", "JPM"), ("j&j", "JNJ"), ("walmart", "WMT"), ("samsung", "005930.KS"),
   ("toyota", "TM"), ("alibaba", "BABA")]

/-- One `{total_predictions, total_score_points}` aggregate of the reliability
ledger (`reliability_score.json`). -/
structure ScoreEntry where
  total_predictions : ℕ
  total_score_points : ℚ
deriving Repr, DecidableEq

/-- The reliability ledger in its current format: a `global` aggregate plus a
per-company mapping (modelled, like a JSON object, as an insertion-ordered
association list). -/
structure ScoreData where
  global : ScoreEntry
  companies : List (String × ScoreEntry)
deriving Repr, DecidableEq

/-- A parsed `reliability_score.json` before format migration: each top-level
key may be absent. -/
structure RawScoreData where
  global : Option ScoreEntry
  total_predictions : Option ℕ
  total_score_points : Option ℚ
  companies : Option (List (String × ScoreEntry))
deriving Repr, DecidableEq

/-- The pure core of `load_reliability_score` from `verifier.py` (lines 36–75):
the in-memory normalisation applied to successfully parsed JSON. A legacy flat
file (no `global` key but a `total_predictions` key) is folded into the nested
format with an empty `companies` map; otherwise missing `global` / `companies`
keys are filled with empty defaults. -/
def load_reliability_score (score_data : RawScoreData) : ScoreData :=
  if score_data.global.isNone ∧ score_data.total_predictions.isSome then
    { global := ⟨score_data.total_predictions.getD 0, score_data.total_score_points.getD 0⟩,
      companies := [] }
  else
    { global := score_data.global.getD ⟨0, 0⟩,
      companies := score_data.companies.getD [] }

/-- One record of `all_predictions.json`. Every field of the underlying JSON
object may be absent, hence `Option`; `verifier.py` reads them with `.get`. -/
structure Prediction where
  status : Option String
  company : Option String
  prediction : Option String
  date_saved : Option String
  error_message : Option String
  date_checked : Option String
  actual_movement_percent : Option ℚ
  prediction_score : Option ℚ
  method : Option String
deriving Repr, DecidableEq

/-- The three distinguishable outcomes of `get_actual_stock_movement` in
`verifier.py`: `("error", None, None)`, `(None, None, None)` (data not yet
available, retry later), or `(percent_change, base_date, check_date)`. -/
inductive FetchResult where
  | fetchError
  | notYetAvailable
  | success (percent_change : ℚ) (base_date : String) (check_date : String)
deriving Repr, DecidableEq

/-- The environment of one verification-cycle run: `date.today()`, the
`datetime.strptime(·, %Y-%m-%d)` date parser (dates as ordinals in `ℤ`, `none`
on `ValueError`), and the external `yfinance`-backed `get_actual_stock_movement`
collaborator. -/
structure CycleEnv where
  today : ℤ
  parseDate : String → Option ℤ
  fetch : String → String → FetchResult

/-- Python truthiness of an optional string: a missing key (`None`) and the
empty string are falsy. -/
def truthyStr : Option String → Bool
  | none => false
  | some s => s != ""

/-- Models Python `round(q, ndigits)` on the exact rational value (ties, which
Python breaks to even, round half away from zero here; no claim exercises a tie). -/
def round_to (ndigits : ℕ) (q : ℚ) : ℚ :=
  (round (q * 10 ^ ndigits) : ℚ) / 10 ^ ndigits

/-- The `if company not in score_data["companies"]: initialise; then `+= 1` /
`+= prediction_score` update of the per-company ledger map in
`check_pending_predictions` (lines 306–310), on the association-list model of a
JSON object (a fresh key is appended, preserving insertion order). -/
def bump_company (companies : List (String × ScoreEntry)) (company : String)
    (prediction_score : ℚ) : List (String × ScoreEntry) :=
  let companies :=
    if (companies.lookup company).isSome then companies
    else companies ++ [(company, ⟨0, 0⟩)]
  companies.map fun kv =>
    if kv.1 = company then
      (kv.1, ⟨kv.2.total_predictions + 1, kv.2.total_score_points + prediction_score⟩)
    else kv

/-- The body of the `for prediction in all_predictions` loop of
`check_pending_predictions` in `verifier.py` (lines 216–318): how one record and
the ledger evolve. Mirrors the source's branch order: skip non-`pending`;
required-field check; date parse and today-or-future skip; ticker lookup; fetch;
on success, score, update ledger and mark `checked`. -/
def process_prediction (env : CycleEnv) (p : Prediction) (score_data : ScoreData) :
    Prediction × ScoreData :=
  if p.status ≠ some "pending" then (p, score_data)
  else
    let company := p.company.getD "Unknown"
    if company = "" ∨ truthyStr p.prediction = false ∨ truthyStr p.date_saved = false then
      ({ p with status := some "error",
                error_message := some "Missing company, prediction, or date_saved" },
       score_data)
    else
      let saved_prediction := p.prediction.getD ""
      let date_saved := p.date_saved.getD ""
      match env.parseDate date_saved with
      | none =>
        ({ p with status := some "error",
                  error_message := some ("Invalid date format: " ++ date_saved) },
         score_data)
      | some date_saved_dt =>
        if date_saved_dt ≥ env.today then (p, score_data)
        else
          match TICKER_MAP.lookup company with
          | none =>
            ({ p with status := some "error",
                      error_message := some "Company not in TICKER_MAP" },
             score_data)
          | some ticker =>
            match env.fetch ticker date_saved with
            | .fetchError =>
              ({ p with status := some "error",
                        error_message := some "yfinance data fetch error" },
               score_data)
            | .notYetAvailable => (p, score_data)
            | .success percent_change _base_date check_date =>
              let prediction_score := calculate_scaled_score saved_prediction percent_change
              let score_data' : ScoreData :=
                { global := ⟨score_data.global.total_predictions + 1,
                             score_data.global.total_score_points + prediction_score⟩,
                  companies := bump_company score_data.companies company prediction_score }
              ({ p with status := some "checked",
                        date_checked := some check_date,
                        actual_movement_percent := some (round_to 2 percent_change),
                        prediction_score := some (round_to 4 prediction_score) },
               score_data')

/-- `check_pending_predictions` from `verifier.py` (lines 200–325), restricted to
its in-memory effect: the loop over the prediction log threading the ledger
through `process_prediction`, returning the updated log and ledger. -/
def check_pending_predictions (env : CycleEnv) :
    List Prediction → ScoreData → List Prediction × ScoreData
  | [], score_data => ([], score_data)
  | p :: rest, score_data =>
    let q := process_prediction env p score_data
    let r := check_pending_predictions env rest q.2
    (q.1 :: r.1, r.2)

/-- One externally triggered verification-cycle invocation: its environment and
the prediction log it scans. -/
structure CycleRun where
  env : CycleEnv
  preds : List Prediction

/-- The ledger after a sequence of verification-cycle runs. -/
def run_cycles (runs : List CycleRun) (score_data : ScoreData) : ScoreData :=
  runs.foldl (fun sd r => (check_pending_predictions r.env r.preds sd).2) score_data

/-! ## Invariants -/

/-- The per-aggregate part of the ledger invariant:
`total_score_points ≤ total_predictions`. -/
def entry_inv (e : ScoreEntry) : Prop :=
  e.total_score_points ≤ (e.total_predictions : ℚ)

/-- The reliability-ledger invariant: `total_score_points ≤ total_predictions`
globally and for every per-company entry. -/
def ledger_inv (sd : ScoreData) : Prop :=
  entry_inv sd.global ∧ ∀ kv ∈ sd.companies, entry_inv kv.2

/-- Pointwise "never decremented" order on ledgers: global counts grow, and every
company present before is still present with counts at least as large. -/
def ledger_le (sd sd' : ScoreData) : Prop :=
  sd.global.total_predictions ≤ sd'.global.total_predictions ∧
  sd.global.total_score_points ≤ sd'.global.total_score_points ∧
  ∀ c e, sd.companies.lookup c = some e →
    ∃ e', sd'.companies.lookup c = some e' ∧
      e.total_predictions ≤ e'.total_predictions ∧
      e.total_score_points ≤ e'.total_score_points

/-! ## Theorems -/

/-- Claim C1: the prediction policy behaves exactly as the specification words it:
`neutral` on an empty tally; otherwise `rise` when `score > 0.15`, `fall` when
`score < −0.05` except that a tentative fall with `negative − positive < 2` is
downgraded to `neutral`, and `neutral` in the remaining cases. In particular the
source's extra `negative > positive` conjunct in the downgrade test is implied by
the tentative-fall precondition, so the two conditions coincide. -/
theorem make_prediction_matches_claim (t : SentimentTally) :
    make_prediction t = make_prediction_claimed t := by
  unfold make_prediction make_prediction_claimed
  by_cases h0 : t.positive + t.negative + t.neutral = 0
  · simp [h0]
  · by_cases hr : (15 : ℚ) / 100 <
        ((t.positive : ℚ) - (t.negative : ℚ)) /
          ((t.positive : ℚ) + (t.negative : ℚ) + (t.neutral : ℚ))
    · simp [h0, hr]
    · by_cases hf : ((t.positive : ℚ) - (t.negative : ℚ)) /
          ((t.positive : ℚ) + (t.negative : ℚ) + (t.neutral : ℚ)) < -5 / 100
      · have htot : (0 : ℚ) <
            (t.positive : ℚ) + (t.negative : ℚ) + (t.neutral : ℚ) := by
          have h := Nat.pos_of_ne_zero h0
          exact_mod_cast h
        have hPN : t.positive < t.negative := by
          by_contra hge
          push_neg at hge
          have hnum : (0 : ℚ) ≤ (t.positive : ℚ) - (t.negative : ℚ) := by
            have hc : (t.negative : ℚ) ≤ (t.positive : ℚ) := by exact_mod_cast hge
            linarith
          have hd := div_nonneg hnum htot.le
          linarith
        simp [h0, hr, hf, hPN]
      · simp [h0, hr, hf]

/-- Claim C2: with `max_threshold = 5.0`, the scaled score is the claimed clamped
linear ramp for each of the three directions. -/
theorem calculate_scaled_score_closed_forms (percent_change : ℚ) :
    calculate_scaled_score "rise" percent_change =
      clamp ((percent_change + 5) / (2 * 5)) 0 1 ∧
    calculate_scaled_score "fall" percent_change =
      clamp (1 - (percent_change + 5) / (2 * 5)) 0 1 ∧
    calculate_scaled_score "neutral" percent_change =
      clamp (1 - |percent_change| / 5) 0 1 := by
  refine ⟨?_, ?_, ?_⟩ <;>
    simp [calculate_scaled_score, MAX_SCORE_THRESHOLD_PERCENT]

/-- Claim C5: loading a legacy flat-format ledger (no `global` key, but a
`total_predictions` key) folds the old values under `global` with an empty
company map; `total_score_points` defaults to `0.0` when absent. -/
theorem load_reliability_score_migration (raw : RawScoreData) (n : ℕ)
    (hg : raw.global = none) (ht : raw.total_predictions = some n) :
    load_reliability_score raw =
      ⟨⟨n, raw.total_score_points.getD 0⟩, []⟩ := by
  simp [load_reliability_score, hg, ht]

/-- Witness for C5: the specification's concrete instance,
`{total_predictions: 3, total_score_points: 1.5}` migrates to
`{global: {total_predictions: 3, total_score_points: 1.5}, companies: {}}`. -/
theorem load_reliability_score_migration_witness :
    load_reliability_score ⟨none, some 3, some (3 / 2), none⟩ =
      ⟨⟨3, 3 / 2⟩, []⟩ :=
  load_reliability_score_migration ⟨none, some 3, some (3 / 2), none⟩ 3 rfl rfl

/-- Claim C9: the binary correctness verdict with margin `0.5`: `rise` is correct
iff `percent_change > 0.5`, `fall` iff `percent_change < −0.5`, `neutral` iff
`|percent_change| ≤ 0.5`. -/
theorem get_correctness_characterization (percent_change : ℚ) :
    (get_correctness "rise" percent_change = "Correct 👍" ↔ percent_change > 1 / 2) ∧
    (get_correctness "fall" percent_change = "Correct 👍" ↔ percent_change < -(1 / 2)) ∧
    (get_correctness "neutral" percent_change = "Correct 👍" ↔ |percent_change| ≤ 1 / 2) := by
  unfold get_correctness
  refine ⟨?_, ?_, ?_⟩ <;> split_ifs with h <;> simp_all

/-- Claim C10: the scaled-score function is total and safe: every direction
string (recognised or not) and every percent change yield a value in `[0, 1]`,
and an unrecognised direction yields exactly `0.0`. -/
theorem calculate_scaled_score_total_safe (prediction : String) (percent_change : ℚ) :
    (0 ≤ calculate_scaled_score prediction percent_change ∧
      calculate_scaled_score prediction percent_change ≤ 1) ∧
    (prediction ≠ "rise" → prediction ≠ "fall" → prediction ≠ "neutral" →
      calculate_scaled_score prediction percent_change = 0) := by
  constructor
  · unfold calculate_scaled_score clamp
    exact ⟨le_max_left _ _, max_le (by norm_num) (min_le_right _ _)⟩
  · intro h1 h2 h3
    simp [calculate_scaled_score, clamp, h1, h2, h3]

/-- Witness for C10 at the unrecognised direction `"bogus"` with a 3% move. -/
theorem calculate_scaled_score_total_safe_witness :
    (0 ≤ calculate_scaled_score "bogus" 3 ∧ calculate_scaled_score "bogus" 3 ≤ 1) ∧
    calculate_scaled_score "bogus" 3 = 0 :=
  ⟨(calculate_scaled_score_total_safe "bogus" 3).1,
   (calculate_scaled_score_total_safe "bogus" 3).2
     (by decide) (by decide) (by decide)⟩

/-- The total count of a tally across its five categories. -/
def tally_total (t : SentimentTally) : ℕ :=
  t.positive + t.negative + t.neutral + t.other + t.failed

/-- The five keys of the `scores` dictionary in `tally_results`. -/
def tally_keys : List String :=
  ["positive", "negative", "neutral", "other", "failed"]

lemma tally_step_total_of_mem (scores : SentimentTally) (item : AnalysisResult)
    (h : item.sentiment ∈ tally_keys) :
    tally_total (tally_step scores item) = tally_total scores + 1 := by
  simp only [tally_keys, List.mem_cons, List.not_mem_nil, or_false] at h
  rcases h with h | h | h | h | h <;>
    simp [tally_step, tally_total, h] <;> omega

lemma tally_foldl_total (l : List AnalysisResult)
    (h : ∀ item ∈ l, item.sentiment ∈ tally_keys) (acc : SentimentTally) :
    tally_total (l.foldl tally_step acc) = tally_total acc + l.length := by
  induction l generalizing acc with
  | nil => simp
  | cons x xs ih =>
    have hx := h x (List.mem_cons_self x xs)
    have hxs : ∀ item ∈ xs, item.sentiment ∈ tally_keys :=
      fun item hm => h item (List.mem_cons_of_mem x hm)
    simp only [List.foldl_cons, List.length_cons]
    rw [ih hxs, tally_step_total_of_mem _ _ hx]
    omega

/-- Counterexample to Claim C7 as stated: a single entry whose label `"bogus"`
lies outside the five tally keys is silently dropped, so the five counts sum to
`0`, not to the input length `1` — and the entry is not counted as `other`. -/
theorem tally_results_drops_unknown_label_cex :
    (tally_results [⟨"some comment", "bogus", none⟩]).positive +
        (tally_results [⟨"some comment", "bogus", none⟩]).negative +
        (tally_results [⟨"some comment", "bogus", none⟩]).neutral +
        (tally_results [⟨"some comment", "bogus", none⟩]).other +
        (tally_results [⟨"some comment", "bogus", none⟩]).failed = 0 ∧
    (tally_results [⟨"some comment", "bogus", none⟩]).other = 0 ∧
    ([(⟨"some comment", "bogus", none⟩ : AnalysisResult)]).length = 1 := by
  refine ⟨rfl, rfl, rfl⟩

/-- Claim C7 (amended): the label normalisation of `analyze_sentiments` sends
every classifier label into the five tally keys (anything unrecognised becomes
`other`), and for every input sequence whose labels lie in the five tally keys —
in particular for any normalised batch — the five counts of `tally_results` sum
to the length of the input. -/
theorem tally_results_sum_of_normalized :
    (∀ label : String, normalize_label label ∈ tally_keys) ∧
    (∀ l : List AnalysisResult, (∀ item ∈ l, item.sentiment ∈ tally_keys) →
      (tally_results l).positive + (tally_results l).negative +
        (tally_results l).neutral + (tally_results l).other +
        (tally_results l).failed = l.length) := by
  constructor
  · intro label
    unfold normalize_label tally_keys
    split_ifs <;> simp
  · intro l h
    have hf := tally_foldl_total l h ⟨0, 0, 0, 0, 0⟩
    simpa [tally_results, tally_total] using hf

/-- Witness for C7: a normalised three-element batch (one `negative`, one
`other` produced by normalising `"surprise"`, one `failed`) tallies to total 3. -/
theorem tally_results_sum_of_normalized_witness :
    normalize_label "surprise" ∈ tally_keys ∧
    ((tally_results [⟨"a", "negative", some (9 / 10)⟩,
        ⟨"b", normalize_label "surprise", some (1 / 2)⟩,
        ⟨"c", "failed", none⟩]).positive +
      (tally_results [⟨"a", "negative", some (9 / 10)⟩,
        ⟨"b", normalize_label "surprise", some (1 / 2)⟩,
        ⟨"c", "failed", none⟩]).negative +
      (tally_results [⟨"a", "negative", some (9 / 10)⟩,
        ⟨"b", normalize_label "surprise", some (1 / 2)⟩,
        ⟨"c", "failed", none⟩]).neutral +
      (tally_results [⟨"a", "negative", some (9 / 10)⟩,
        ⟨"b", normalize_label "surprise", some (1 / 2)⟩,
        ⟨"c", "failed", none⟩]).other +
      (tally_results [⟨"a", "negative", some (9 / 10)⟩,
        ⟨"b", normalize_label "surprise", some (1 / 2)⟩,
        ⟨"c", "failed", none⟩]).failed =
      ([⟨"a", "negative", some (9 / 10)⟩,
        ⟨"b", normalize_label "surprise", some (1 / 2)⟩,
        (⟨"c", "failed", none⟩ : AnalysisResult)]).length) :=
  ⟨(tally_results_sum_of_normalized).1 "surprise",
   (tally_results_sum_of_normalized).2 _ (by decide)⟩

/-! ### Structural lemmas about one verification step -/

lemma process_prediction_skip (env : CycleEnv) (p : Prediction) (sd : ScoreData)
    (h : p.status ≠ some "pending") :
    process_prediction env p sd = (p, sd) := by
  simp [process_prediction, h]

lemma process_prediction_ledger_cases (env : CycleEnv) (p : Prediction) (sd : ScoreData) :
    (process_prediction env p sd).2 = sd ∨
      (process_prediction env p sd).1.status = some "checked" := by
  simp only [process_prediction]
  split
  · left; rfl
  · split
    · left; rfl
    · split
      · left; rfl
      · split
        · left; rfl
        · split
          · left; rfl
          · split
            · left; rfl
            · left; rfl
            · right; rfl

lemma process_prediction_record_cases (env : CycleEnv) (p : Prediction) (sd : ScoreData) :
    (process_prediction env p sd).1 = p ∨
      (process_prediction env p sd).1.status = some "error" ∨
      (process_prediction env p sd).1.status = some "checked" := by
  simp only [process_prediction]
  split
  · left; rfl
  · split
    · right; left; rfl
    · split
      · right; left; rfl
      · split
        · left; rfl
        · split
          · right; left; rfl
          · split
            · right; left; rfl
            · left; rfl
            · right; right; rfl

lemma process_prediction_record_indep (env : CycleEnv) (p : Prediction)
    (sd sd' : ScoreData) :
    (process_prediction env p sd).1 = (process_prediction env p sd').1 := by
  simp only [process_prediction]
  split
  · rfl
  · split
    · rfl
    · split
      · rfl
      · split
        · rfl
        · split
          · rfl
          · split
            · rfl
            · rfl
            · rfl

/-- Claim C3 (amended, corrected): an `error` transition contributes nothing to
the reliability ledger — whenever processing a record leaves it in status
`error`, the ledger is returned unchanged (in particular `total_predictions` is
not incremented). Only `checked` transitions update the ledger. -/
theorem error_transition_ledger_unchanged (env : CycleEnv) (p : Prediction)
    (sd : ScoreData)
    (h : (process_prediction env p sd).1.status = some "error") :
    (process_prediction env p sd).2 = sd := by
  rcases process_prediction_ledger_cases env p sd with hc | hc
  · exact hc
  · rw [h] at hc
    exact absurd hc (by decide)

/-- Witness for C3: a pending record with an unparseable date is marked `error`
and the ledger `{total_predictions: 2, total_score_points: 1}` is untouched. -/
theorem error_transition_ledger_unchanged_witness :
    (process_prediction ⟨100, fun _ => none, fun _ _ => .fetchError⟩
        ⟨some "pending", some "apple", some "rise", some "baddate",
         none, none, none, none, none⟩ ⟨⟨2, 1⟩, []⟩).2 = ⟨⟨2, 1⟩, []⟩ :=
  error_transition_ledger_unchanged _ _ _ (by decide)

/-- Counterexample to Claim C3 as stated: a pending record for `apple` with an
unparseable date transitions to `error`, yet the ledger is left at
`{total_predictions: 0, total_score_points: 0}` — the error is *not* counted in
`total_predictions` (the claim demands it become `1`). -/
theorem error_transition_not_counted_cex :
    ((check_pending_predictions ⟨100, fun _ => none, fun _ _ => .fetchError⟩
          [⟨some "pending", some "apple", some "rise", some "baddate",
            none, none, none, none, none⟩] ⟨⟨0, 0⟩, []⟩).1.map Prediction.status =
        [some "error"]) ∧
      (check_pending_predictions ⟨100, fun _ => none, fun _ _ => .fetchError⟩
          [⟨some "pending", some "apple", some "rise", some "baddate",
            none, none, none, none, none⟩] ⟨⟨0, 0⟩, []⟩).2.global.total_predictions =
        0 := by
  exact ⟨rfl, rfl⟩

/-! ### Stability of processed records and idempotence of the cycle -/

lemma process_prediction_stable (env : CycleEnv) (p : Prediction) (sd sd' : ScoreData) :
    process_prediction env (process_prediction env p sd).1 sd' =
      ((process_prediction env p sd).1, sd') := by
  rcases process_prediction_record_cases env p sd with h | h | h
  · rw [h]
    by_cases hp : p.status = some "pending"
    · rcases process_prediction_ledger_cases env p sd' with h2 | h2
      · have h1 : (process_prediction env p sd').1 = p :=
          (process_prediction_record_indep env p sd' sd).trans h
        calc process_prediction env p sd'
            = ((process_prediction env p sd').1, (process_prediction env p sd').2) := rfl
          _ = (p, sd') := by rw [h1, h2]
      · have h1 : (process_prediction env p sd').1 = p :=
          (process_prediction_record_indep env p sd' sd).trans h
        rw [h1] at h2
        rw [hp] at h2
        exact absurd h2 (by decide)
    · exact process_prediction_skip env p sd' hp
  · exact process_prediction_skip env _ sd' (by rw [h]; decide)
  · exact process_prediction_skip env _ sd' (by rw [h]; decide)

lemma check_pending_output_stable (env : CycleEnv) (preds : List Prediction)
    (sd : ScoreData) :
    ∀ q ∈ (check_pending_predictions env preds sd).1, ∀ sd' : ScoreData,
      process_prediction env q sd' = (q, sd') := by
  induction preds generalizing sd with
  | nil => simp [check_pending_predictions]
  | cons p rest ih =>
    intro q hq sd'
    simp only [check_pending_predictions, List.mem_cons] at hq
    rcases hq with hq | hq
    · subst hq
      exact process_prediction_stable env p sd sd'
    · exact ih _ q hq sd'

lemma check_pending_of_stable (env : CycleEnv) (preds : List Prediction)
    (sd : ScoreData)
    (h : ∀ q ∈ preds, ∀ sd' : ScoreData, process_prediction env q sd' = (q, sd')) :
    check_pending_predictions env preds sd = (preds, sd) := by
  induction preds generalizing sd with
  | nil => simp [check_pending_predictions]
  | cons p rest ih =>
    simp only [check_pending_predictions]
    rw [h p (List.mem_cons_self p rest) sd]
    rw [ih sd (fun q hq => h q (List.mem_cons_of_mem p hq))]

/-- Claim C6: the verification cycle is idempotent. A record whose status is not
`pending` (in particular `checked` or `error`) is returned untouched with the
ledger unchanged, whatever its other fields hold; and re-running the whole cycle
on its own output (same date, same market data — no newly settled data) changes
neither the ledger nor any record. -/
theorem verification_cycle_idempotent (env : CycleEnv) :
    (∀ (p : Prediction) (sd : ScoreData), p.status ≠ some "pending" →
        process_prediction env p sd = (p, sd)) ∧
    (∀ (preds : List Prediction) (sd : ScoreData),
        check_pending_predictions env
            (check_pending_predictions env preds sd).1
            (check_pending_predictions env preds sd).2 =
          check_pending_predictions env preds sd) := by
  refine ⟨fun p sd h => process_prediction_skip env p sd h, fun preds sd => ?_⟩
  rw [check_pending_of_stable env _ _ (check_pending_output_stable env preds sd)]

/-- Witness for C6: a `checked` record is skipped untouched, and a second cycle
run over the output of a first run (one record gets checked with a +2% move, one
stays pending for the future) is the identity. -/
theorem verification_cycle_idempotent_witness :
    (process_prediction
        ⟨100, fun s => if s = "2024-01-01" then some 50 else
            if s = "2999-01-01" then some 500 else none,
         fun _ _ => .success 2 "2024-01-02" "2024-01-03"⟩
        ⟨some "checked", some "apple", some "rise", some "2024-01-01",
         none, some "2024-01-03", some 2, some (7 / 10), none⟩ ⟨⟨1, 1⟩, []⟩ =
      (⟨some "checked", some "apple", some "rise", some "2024-01-01",
        none, some "2024-01-03", some 2, some (7 / 10), none⟩, ⟨⟨1, 1⟩, []⟩)) ∧
    (check_pending_predictions
        ⟨100, fun s => if s = "2024-01-01" then some 50 else
            if s = "2999-01-01" then some 500 else none,
         fun _ _ => .success 2 "2024-01-02" "2024-01-03"⟩
        (check_pending_predictions
          ⟨100, fun s => if s = "2024-01-01" then some 50 else
              if s = "2999-01-01" then some 500 else none,
           fun _ _ => .success 2 "2024-01-02" "2024-01-03"⟩
          [⟨some "pending", some "apple", some "rise", some "2024-01-01",
            none, none, none, none, none⟩,
           ⟨some "pending", some "tesla", some "fall", some "2999-01-01",
            none, none, none, none, none⟩] ⟨⟨0, 0⟩, []⟩).1
        (check_pending_predictions
          ⟨100, fun s => if s = "2024-01-01" then some 50 else
              if s = "2999-01-01" then some 500 else none,
           fun _ _ => .success 2 "2024-01-02" "2024-01-03"⟩
          [⟨some "pending", some "apple", some "rise", some "2024-01-01",
            none, none, none, none, none⟩,
           ⟨some "pending", some "tesla", some "fall", some "2999-01-01",
            none, none, none, none, none⟩] ⟨⟨0, 0⟩, []⟩).2 =
      check_pending_predictions
        ⟨100, fun s => if s = "2024-01-01" then some 50 else
            if s = "2999-01-01" then some 500 else none,
         fun _ _ => .success 2 "2024-01-02" "2024-01-03"⟩
        [⟨some "pending", some "apple", some "rise", some "2024-01-01",
          none, none, none, none, none⟩,
         ⟨some "pending", some "tesla", some "fall", some "2999-01-01",
          none, none, none, none, none⟩] ⟨⟨0, 0⟩, []⟩) :=
  ⟨(verification_cycle_idempotent _).1 _ _ (by decide),
   (verification_cycle_idempotent _).2 _ _⟩

/-! ### Ledger invariant preservation -/

lemma calculate_scaled_score_nonneg (prediction : String) (percent_change : ℚ) :
    0 ≤ calculate_scaled_score prediction percent_change := by
  unfold calculate_scaled_score clamp
  exact le_max_left _ _

lemma calculate_scaled_score_le_one (prediction : String) (percent_change : ℚ) :
    calculate_scaled_score prediction percent_change ≤ 1 := by
  unfold calculate_scaled_score clamp
  exact max_le (by norm_num) (min_le_right _ _)

lemma ledger_le_refl (sd : ScoreData) : ledger_le sd sd :=
  ⟨le_refl _, le_refl _, fun _ e he => ⟨e, he, le_refl _, le_refl _⟩⟩

lemma ledger_le_trans {sd₁ sd₂ sd₃ : ScoreData}
    (h₁ : ledger_le sd₁ sd₂) (h₂ : ledger_le sd₂ sd₃) : ledger_le sd₁ sd₃ := by
  refine ⟨h₁.1.trans h₂.1, h₁.2.1.trans h₂.2.1, fun c e he => ?_⟩
  obtain ⟨e', he', hp', hs'⟩ := h₁.2.2 c e he
  obtain ⟨e'', he'', hp'', hs''⟩ := h₂.2.2 c e' he'
  exact ⟨e'', he'', hp'.trans hp'', hs'.trans hs''⟩

lemma bump_map_lookup (l : List (String × ScoreEntry)) (company : String) (s : ℚ)
    (c : String) :
    (l.map fun kv =>
        if kv.1 = company then
          (kv.1, (⟨kv.2.total_predictions + 1, kv.2.total_score_points + s⟩ : ScoreEntry))
        else kv).lookup c =
      (l.lookup c).map fun e =>
        if c = company then ⟨e.total_predictions + 1, e.total_score_points + s⟩
        else e := by
  induction l with
  | nil => simp
  | cons kv rest ih =>
    obtain ⟨k, e⟩ := kv
    simp only [List.map_cons]
    by_cases hk : k = company
    · rw [if_pos hk]
      by_cases hc : c = k
      · have hbeq : (c == k) = true := by simp [hc]
        rw [List.lookup_cons, List.lookup_cons]
        simp only [hbeq]
        have hcc : c = company := hc.trans hk
        simp [hcc]
      · have hbeq : (c == k) = false := by simp [hc]
        rw [List.lookup_cons, List.lookup_cons]
        simp only [hbeq]
        exact ih
    · rw [if_neg hk]
      by_cases hc : c = k
      · have hbeq : (c == k) = true := by simp [hc]
        rw [List.lookup_cons, List.lookup_cons]
        simp only [hbeq]
        have hcc : ¬ c = company := fun h => hk (hc.symm.trans h)
        simp [hcc]
      · have hbeq : (c == k) = false := by simp [hc]
        rw [List.lookup_cons, List.lookup_cons]
        simp only [hbeq]
        exact ih

lemma lookup_append_left {l₁ l₂ : List (String × ScoreEntry)} {c : String}
    {e : ScoreEntry} (h : l₁.lookup c = some e) :
    (l₁ ++ l₂).lookup c = some e := by
  induction l₁ with
  | nil => simp at h
  | cons kv rest ih =>
    obtain ⟨k, v⟩ := kv
    rw [List.lookup_cons] at h
    rw [List.cons_append, List.lookup_cons]
    by_cases hc : c = k
    · have hbeq : (c == k) = true := by simp [hc]
      simp only [hbeq] at h ⊢
      exact h
    · have hbeq : (c == k) = false := by simp [hc]
      simp only [hbeq] at h ⊢
      exact ih h

lemma lookup_append_right {l₁ : List (String × ScoreEntry)}
    (l₂ : List (String × ScoreEntry)) {c : String} (h : l₁.lookup c = none) :
    (l₁ ++ l₂).lookup c = l₂.lookup c := by
  induction l₁ with
  | nil => simp
  | cons kv rest ih =>
    obtain ⟨k, v⟩ := kv
    rw [List.lookup_cons] at h
    rw [List.cons_append, List.lookup_cons]
    by_cases hc : c = k
    · have hbeq : (c == k) = true := by simp [hc]
      simp only [hbeq] at h
      exact absurd h (by simp)
    · have hbeq : (c == k) = false := by simp [hc]
      simp only [hbeq] at h ⊢
      exact ih h

lemma bump_company_lookup (cs : List (String × ScoreEntry)) (company : String)
    (s : ℚ) (c : String) :
    (bump_company cs company s).lookup c =
      if c = company then
        some ⟨((cs.lookup company).getD ⟨0, 0⟩).total_predictions + 1,
              ((cs.lookup company).getD ⟨0, 0⟩).total_score_points + s⟩
      else cs.lookup c := by
  unfold bump_company
  by_cases hsome : (cs.lookup company).isSome
  · obtain ⟨e, he⟩ := Option.isSome_iff_exists.mp hsome
    simp only [hsome, if_true]
    rw [bump_map_lookup]
    by_cases hc : c = company
    · subst hc
      simp [he]
    · simp [hc]
  · have hnone : cs.lookup company = none := Option.not_isSome_iff_eq_none.mp hsome
    simp only [hsome, Bool.false_eq_true, if_false]
    rw [bump_map_lookup]
    by_cases hc : c = company
    · subst hc
      rw [lookup_append_right _ hnone]
      simp [hnone]
    · by_cases hcs : (cs.lookup c).isSome
      · obtain ⟨e, he⟩ := Option.isSome_iff_exists.mp hcs
        rw [lookup_append_left he]
        simp [hc, he]
      · have hn : cs.lookup c = none := Option.not_isSome_iff_eq_none.mp hcs
        rw [lookup_append_right _ hn]
        have hbeq : (c == company) = false := by simp [hc]
        rw [List.lookup_cons]
        simp [hbeq, hc, hn]

lemma bump_company_inv {cs : List (String × ScoreEntry)} {company : String} {s : ℚ}
    (hinv : ∀ kv ∈ cs, entry_inv kv.2) (_h0 : 0 ≤ s) (h1 : s ≤ 1) :
    ∀ kv ∈ bump_company cs company s, entry_inv kv.2 := by
  intro kv hkv
  unfold bump_company at hkv
  rw [List.mem_map] at hkv
  obtain ⟨kv₀, hkv₀, hf⟩ := hkv
  have hinv₀ : entry_inv kv₀.2 := by
    by_cases hsome : (cs.lookup company).isSome
    · simp only [hsome, if_true] at hkv₀
      exact hinv kv₀ hkv₀
    · simp only [hsome, Bool.false_eq_true, if_false, List.mem_append,
        List.mem_singleton] at hkv₀
      rcases hkv₀ with h | h
      · exact hinv kv₀ h
      · rw [h]
        simp [entry_inv]
  rw [← hf]
  by_cases hk : kv₀.1 = company
  · simp only [hk, if_true]
    unfold entry_inv at hinv₀ ⊢
    push_cast
    linarith
  · simp only [hk, if_false]
    exact hinv₀

lemma process_prediction_preserves (env : CycleEnv) (p : Prediction) (sd : ScoreData)
    (h : ledger_inv sd) :
    ledger_inv (process_prediction env p sd).2 ∧
      ledger_le sd (process_prediction env p sd).2 := by
  simp only [process_prediction]
  split
  · exact ⟨h, ledger_le_refl sd⟩
  · split
    · exact ⟨h, ledger_le_refl sd⟩
    · split
      · exact ⟨h, ledger_le_refl sd⟩
      · split
        · exact ⟨h, ledger_le_refl sd⟩
        · split
          · exact ⟨h, ledger_le_refl sd⟩
          · split
            · exact ⟨h, ledger_le_refl sd⟩
            · exact ⟨h, ledger_le_refl sd⟩
            · rename_i percent_change base_date check_date _
              constructor
              · constructor
                · have h1 := h.1
                  unfold entry_inv at h1 ⊢
                  have hle := calculate_scaled_score_le_one (p.prediction.getD "")
                    percent_change
                  push_cast
                  linarith
                · exact bump_company_inv h.2
                    (calculate_scaled_score_nonneg _ _)
                    (calculate_scaled_score_le_one _ _)
              · refine ⟨Nat.le_succ _, ?_, fun c e he => ?_⟩
                · have h0 := calculate_scaled_score_nonneg (p.prediction.getD "")
                    percent_change
                  simp only
                  linarith
                · rw [bump_company_lookup]
                  by_cases hc : c = p.company.getD "Unknown"
                  · subst hc
                    rw [if_pos rfl, he]
                    have h0 := calculate_scaled_score_nonneg (p.prediction.getD "")
                      percent_change
                    refine ⟨_, rfl, ?_, ?_⟩
                    · simp only [Option.getD_some]
                      exact Nat.le_succ _
                    · simp only [Option.getD_some]
                      linarith
                  · rw [if_neg hc]
                    exact ⟨e, he, le_refl _, le_refl _⟩

lemma check_pending_preserves (env : CycleEnv) (preds : List Prediction)
    (sd : ScoreData) (h : ledger_inv sd) :
    ledger_inv (check_pending_predictions env preds sd).2 ∧
      ledger_le sd (check_pending_predictions env preds sd).2 := by
  induction preds generalizing sd with
  | nil => exact ⟨h, ledger_le_refl sd⟩
  | cons p rest ih =>
    simp only [check_pending_predictions]
    have h1 := process_prediction_preserves env p sd h
    have h2 := ih _ h1.1
    exact ⟨h2.1, ledger_le_trans h1.2 h2.2⟩

/-- Claim C4: the ledger invariant `total_score_points ≤ total_predictions`
(globally and for every per-company entry) is preserved by any sequence of
verification-cycle runs, and counts are never decremented: global counts only
grow, and every company entry present before is present after with counts at
least as large. -/
theorem ledger_invariant_preserved (runs : List CycleRun) (sd : ScoreData)
    (h : ledger_inv sd) :
    ledger_inv (run_cycles runs sd) ∧ ledger_le sd (run_cycles runs sd) := by
  induction runs generalizing sd with
  | nil => exact ⟨h, ledger_le_refl sd⟩
  | cons r rest ih =>
    simp only [run_cycles, List.foldl_cons]
    have h1 := check_pending_preserves r.env r.preds sd h
    have h2 := ih _ h1.1
    exact ⟨h2.1, ledger_le_trans h1.2 (by simpa [run_cycles] using h2.2)⟩

/-- Witness for C4: a concrete valid ledger stays valid after a run that checks
one prediction (apple, rise, +2%) and errors another (unmapped company). -/
theorem ledger_invariant_preserved_witness :
    ledger_inv ⟨⟨2, 3 / 2⟩, [("apple", ⟨1, 1⟩)]⟩ ∧
    ledger_inv (run_cycles
      [⟨⟨100, fun s => if s = "2024-01-01" then some 50 else none,
         fun _ _ => .success 2 "2024-01-02" "2024-01-03"⟩,
        [⟨some "pending", some "apple", some "rise", some "2024-01-01",
          none, none, none, none, none⟩,
         ⟨some "pending", some "acme", some "fall", some "2024-01-01",
          none, none, none, none, none⟩]⟩]
      ⟨⟨2, 3 / 2⟩, [("apple", ⟨1, 1⟩)]⟩) := by
  have hinv : ledger_inv ⟨⟨2, 3 / 2⟩, [("apple", ⟨1, 1⟩)]⟩ := by
    constructor
    · norm_num [entry_inv]
    · intro kv hkv
      simp only [List.mem_singleton] at hkv
      subst hkv
      norm_num [entry_inv]
  exact ⟨hinv, (ledger_invariant_preserved _ _ hinv).1⟩

/-! ### Pending records with a current or future target date -/

/-- Claim C8 (amended, corrected): a pending record that passes the
required-field validation (company, prediction and date present and non-empty)
and whose `date_for` parses to today or a later date is left exactly as it is:
status stays `pending`, no field changes, and the ledger is not touched. (The
field-validation precondition is necessary: the source checks required fields
*before* the date, so a future-dated record with a missing field is errored.) -/
theorem pending_future_date_untouched (env : CycleEnv) (p : Prediction)
    (sd : ScoreData)
    (hstatus : p.status = some "pending")
    (hco : p.company.getD "Unknown" ≠ "")
    (hpred : truthyStr p.prediction = true)
    (hds : truthyStr p.date_saved = true)
    (d : ℤ) (hparse : env.parseDate (p.date_saved.getD "") = some d)
    (hfuture : env.today ≤ d) :
    process_prediction env p sd = (p, sd) := by
  unfold process_prediction
  simp [hstatus, hco, hpred, hds, hparse, hfuture]

/-- Witness for C8: a valid pending record for `apple` dated `2999-01-01`
(ordinal 500, today is 100) is returned untouched together with the ledger. -/
theorem pending_future_date_untouched_witness :
    process_prediction
        ⟨100, fun s => if s = "2999-01-01" then some 500 else none,
         fun _ _ => .fetchError⟩
        ⟨some "pending", some "apple", some "rise", some "2999-01-01",
         none, none, none, none, none⟩ ⟨⟨2, 1⟩, [("apple", ⟨1, 1⟩)]⟩ =
      (⟨some "pending", some "apple", some "rise", some "2999-01-01",
        none, none, none, none, none⟩, ⟨⟨2, 1⟩, [("apple", ⟨1, 1⟩)]⟩) :=
  pending_future_date_untouched _ _ _ (by decide) (by decide) (by decide)
    (by decide) 500 (by decide) (by decide)

/-- Counterexample to Claim C8 as stated: a pending record whose `date_for`
`"2999-01-01"` is well-formed (it parses to ordinal 500, and today is 100 ≤ 500)
but whose `prediction` field is missing is transitioned to `error`, not left
`pending` — the required-field validation runs before the date check. -/
theorem pending_future_date_untouched_cex :
    (CycleEnv.parseDate
        ⟨100, fun s => if s = "2999-01-01" then some 500 else none,
         fun _ _ => .fetchError⟩ "2999-01-01" = some 500) ∧
    ((100 : ℤ) ≤ 500) ∧
    ((process_prediction
        ⟨100, fun s => if s = "2999-01-01" then some 500 else none,
         fun _ _ => .fetchError⟩
        ⟨some "pending", some "apple", none, some "2999-01-01",
         none, none, none, none, none⟩ ⟨⟨0, 0⟩, []⟩).1.status = some "error") ∧
    ((process_prediction
        ⟨100, fun s => if s = "2999-01-01" then some 500 else none,
         fun _ _ => .fetchError⟩
        ⟨some "pending", some "apple", none, some "2999-01-01",
         none, none, none, none, none⟩ ⟨⟨0, 0⟩, []⟩).1.status ≠ some "pending") := by
  refine ⟨rfl, by decide, rfl, by decide⟩

end StockPredictor
